import Mathlib

/-!
Verification of the pairing/commissioning protocol of the intelligent-hydroponics
firmware: the binary wire codec (`EspNowMessage.cpp`), the coordinator-side
discovery table (`DiscoveryManager.cpp`) and pairing state machine
(`PairingStateMachine.cpp`), and the node-side pairing FSM (`NodePairingFSM.cpp`).

Machine integers are modelled as `Nat` with explicit bounds (`% 2^w` where
overflow matters); the signed 8-bit RSSI field is an `Int`.  The millisecond
clock is a `Nat` passed explicitly to every operation that reads `millis()`;
unsigned 32-bit wraparound subtraction is `u32sub`.  Randomness (`esp_random`)
is an explicit parameter.  Transport send callbacks are `Option` fields of an
environment record (they may be unset, as in the source); observer callbacks
are modelled by emitted event lists: an event is appended exactly when the
source would invoke the corresponding callback.
-/

namespace Hydro

/-- A 6-byte hardware (MAC) address, the table key used everywhere. -/
structure Mac where
  b0 : Nat
  b1 : Nat
  b2 : Nat
  b3 : Nat
  b4 : Nat
  b5 : Nat
deriving DecidableEq, Repr

/-- All six bytes of the address are in range. -/
def Mac.wf (m : Mac) : Prop :=
  m.b0 < 256 ∧ m.b1 < 256 ∧ m.b2 < 256 ∧ m.b3 < 256 ∧ m.b4 < 256 ∧ m.b5 < 256

/-- The all-zero address (`memset(mac, 0, 6)`). -/
def Mac.zero : Mac := ⟨0, 0, 0, 0, 0, 0⟩

/-- Least-significant byte of a little-endian encoded integer. -/
def byte0 (v : Nat) : Nat := v % 256

/-- Second byte of a little-endian encoded integer. -/
def byte1 (v : Nat) : Nat := v / 2 ^ 8 % 256

/-- Third byte of a little-endian encoded integer. -/
def byte2 (v : Nat) : Nat := v / 2 ^ 16 % 256

/-- Fourth byte of a little-endian encoded integer. -/
def byte3 (v : Nat) : Nat := v / 2 ^ 24 % 256

/-- Reassemble a 16-bit integer from two little-endian bytes (`memcpy` on ESP32). -/
def rd16 (a b : Nat) : Nat := a + 2 ^ 8 * b

/-- Reassemble a 32-bit integer from four little-endian bytes (`memcpy` on ESP32). -/
def rd32 (a b c d : Nat) : Nat := a + 2 ^ 8 * b + 2 ^ 16 * c + 2 ^ 24 * d

/-- `static_cast<uint8_t>` of a signed 8-bit value: two's-complement byte. -/
def int8ToByte (r : Int) : Nat := (r % 256).toNat

/-- `static_cast<int8_t>` of a byte: two's-complement signed interpretation. -/
def byteToInt8 (b : Nat) : Int := if b < 128 then (b : Int) else (b : Int) - 256

/-- Unsigned 32-bit wraparound subtraction `(uint32_t)(a - b)`. -/
def u32sub (a b : Nat) : Nat := (a + 2 ^ 32 - b % 2 ^ 32) % 2 ^ 32

theorem rd16_bytes {v : Nat} (h : v < 2 ^ 16) : rd16 (byte0 v) (byte1 v) = v := by
  simp only [rd16, byte0, byte1]; omega

theorem rd32_bytes {v : Nat} (h : v < 2 ^ 32) :
    rd32 (byte0 v) (byte1 v) (byte2 v) (byte3 v) = v := by
  simp only [rd32, byte0, byte1, byte2, byte3]; omega

theorem int8_bytes {r : Int} (h1 : -128 ≤ r) (h2 : r < 128) :
    byteToInt8 (int8ToByte r) = r := by
  simp only [byteToInt8, int8ToByte]
  omega

/-- Protocol version constant (`PairingConstants::PROTOCOL_VERSION = 0x02`). -/
def PROTOCOL_VERSION : Nat := 0x02

/-! ### Wire messages (wire fields only, from `EspNowMessage.h`)

`device_type` and the reason codes travel as raw bytes and the decoder casts
any byte value into the enum, so they are modelled as `Nat`. -/

/-- PAIRING_ADVERTISEMENT (node → broadcast, 22 bytes, marker `0x20`). -/
structure PairingAdvertisementMessage where
  protocol_version : Nat
  node_mac : Mac
  device_type : Nat
  firmware_version : Nat
  capabilities : Nat
  nonce : Nat
  sequence_num : Nat
  rssi_request : Int
deriving DecidableEq, Repr

/-- Every field of the advertisement is within its declared C++ type range. -/
def PairingAdvertisementMessage.wf (m : PairingAdvertisementMessage) : Prop :=
  m.protocol_version < 256 ∧ m.node_mac.wf ∧ m.device_type < 256 ∧
  m.firmware_version < 2 ^ 32 ∧ m.capabilities < 2 ^ 16 ∧ m.nonce < 2 ^ 32 ∧
  m.sequence_num < 2 ^ 16 ∧ -128 ≤ m.rssi_request ∧ m.rssi_request < 128

/-- `PairingAdvertisementMessage::toBinary`: marker byte then packed fields. -/
def PairingAdvertisementMessage.toBinary (m : PairingAdvertisementMessage) : List Nat :=
  [0x20, m.protocol_version,
   m.node_mac.b0, m.node_mac.b1, m.node_mac.b2, m.node_mac.b3, m.node_mac.b4, m.node_mac.b5,
   m.device_type,
   byte0 m.firmware_version, byte1 m.firmware_version, byte2 m.firmware_version, byte3 m.firmware_version,
   byte0 m.capabilities, byte1 m.capabilities,
   byte0 m.nonce, byte1 m.nonce, byte2 m.nonce, byte3 m.nonce,
   byte0 m.sequence_num, byte1 m.sequence_num,
   int8ToByte m.rssi_request]

/-- `PairingAdvertisementMessage::fromBinary`: fails on a buffer shorter than
22 bytes or whose first byte is not `0x20`; otherwise reads every field. -/
def PairingAdvertisementMessage.fromBinary : List Nat → Option PairingAdvertisementMessage
  | t :: pv :: m0 :: m1 :: m2 :: m3 :: m4 :: m5 :: dt ::
    f0 :: f1 :: f2 :: f3 :: c0 :: c1 :: n0 :: n1 :: n2 :: n3 :: s0 :: s1 :: r :: _ =>
    if t = 0x20 then
      some { protocol_version := pv, node_mac := ⟨m0, m1, m2, m3, m4, m5⟩,
             device_type := dt, firmware_version := rd32 f0 f1 f2 f3,
             capabilities := rd16 c0 c1, nonce := rd32 n0 n1 n2 n3,
             sequence_num := rd16 s0 s1, rssi_request := byteToInt8 r }
    else none
  | _ => none

/-- PAIRING_OFFER (coordinator → node unicast, 23 bytes, marker `0x21`). -/
structure PairingOfferMessage where
  protocol_version : Nat
  coord_mac : Mac
  coord_id : Nat
  farm_id : Nat
  offered_tower_id : Nat
  nonce_echo : Nat
  offer_token : Nat
  channel : Nat
deriving DecidableEq, Repr

/-- Every field of the offer is within its declared C++ type range. -/
def PairingOfferMessage.wf (m : PairingOfferMessage) : Prop :=
  m.protocol_version < 256 ∧ m.coord_mac.wf ∧ m.coord_id < 2 ^ 16 ∧
  m.farm_id < 2 ^ 16 ∧ m.offered_tower_id < 2 ^ 16 ∧ m.nonce_echo < 2 ^ 32 ∧
  m.offer_token < 2 ^ 32 ∧ m.channel < 256

/-- `PairingOfferMessage::toBinary`. -/
def PairingOfferMessage.toBinary (m : PairingOfferMessage) : List Nat :=
  [0x21, m.protocol_version,
   m.coord_mac.b0, m.coord_mac.b1, m.coord_mac.b2, m.coord_mac.b3, m.coord_mac.b4, m.coord_mac.b5,
   byte0 m.coord_id, byte1 m.coord_id,
   byte0 m.farm_id, byte1 m.farm_id,
   byte0 m.offered_tower_id, byte1 m.offered_tower_id,
   byte0 m.nonce_echo, byte1 m.nonce_echo, byte2 m.nonce_echo, byte3 m.nonce_echo,
   byte0 m.offer_token, byte1 m.offer_token, byte2 m.offer_token, byte3 m.offer_token,
   m.channel]

/-- `PairingOfferMessage::fromBinary`. -/
def PairingOfferMessage.fromBinary : List Nat → Option PairingOfferMessage
  | t :: pv :: m0 :: m1 :: m2 :: m3 :: m4 :: m5 ::
    i0 :: i1 :: g0 :: g1 :: w0 :: w1 ::
    n0 :: n1 :: n2 :: n3 :: k0 :: k1 :: k2 :: k3 :: ch :: _ =>
    if t = 0x21 then
      some { protocol_version := pv, coord_mac := ⟨m0, m1, m2, m3, m4, m5⟩,
             coord_id := rd16 i0 i1, farm_id := rd16 g0 g1,
             offered_tower_id := rd16 w0 w1, nonce_echo := rd32 n0 n1 n2 n3,
             offer_token := rd32 k0 k1 k2 k3, channel := ch }
    else none
  | _ => none

/-- PAIRING_ACCEPT (node → coordinator, 13 bytes, marker `0x22`). -/
structure PairingAcceptMessage where
  node_mac : Mac
  offer_token : Nat
  accepted_tower_id : Nat
deriving DecidableEq, Repr

/-- Every field of the accept is within its declared C++ type range. -/
def PairingAcceptMessage.wf (m : PairingAcceptMessage) : Prop :=
  m.node_mac.wf ∧ m.offer_token < 2 ^ 32 ∧ m.accepted_tower_id < 2 ^ 16

/-- `PairingAcceptMessage::toBinary`. -/
def PairingAcceptMessage.toBinary (m : PairingAcceptMessage) : List Nat :=
  [0x22,
   m.node_mac.b0, m.node_mac.b1, m.node_mac.b2, m.node_mac.b3, m.node_mac.b4, m.node_mac.b5,
   byte0 m.offer_token, byte1 m.offer_token, byte2 m.offer_token, byte3 m.offer_token,
   byte0 m.accepted_tower_id, byte1 m.accepted_tower_id]

/-- `PairingAcceptMessage::fromBinary`. -/
def PairingAcceptMessage.fromBinary : List Nat → Option PairingAcceptMessage
  | t :: m0 :: m1 :: m2 :: m3 :: m4 :: m5 :: k0 :: k1 :: k2 :: k3 :: w0 :: w1 :: _ =>
    if t = 0x22 then
      some { node_mac := ⟨m0, m1, m2, m3, m4, m5⟩,
             offer_token := rd32 k0 k1 k2 k3, accepted_tower_id := rd16 w0 w1 }
    else none
  | _ => none

/-- A 16-byte session key, byte by byte (`uint8_t encryption_key[16]`). -/
structure Key16 where
  k0 : Nat
  k1 : Nat
  k2 : Nat
  k3 : Nat
  k4 : Nat
  k5 : Nat
  k6 : Nat
  k7 : Nat
  k8 : Nat
  k9 : Nat
  k10 : Nat
  k11 : Nat
  k12 : Nat
  k13 : Nat
  k14 : Nat
  k15 : Nat
deriving DecidableEq, Repr

/-- All 16 key bytes are in range. -/
def Key16.wf (k : Key16) : Prop :=
  k.k0 < 256 ∧ k.k1 < 256 ∧ k.k2 < 256 ∧ k.k3 < 256 ∧ k.k4 < 256 ∧ k.k5 < 256 ∧
  k.k6 < 256 ∧ k.k7 < 256 ∧ k.k8 < 256 ∧ k.k9 < 256 ∧ k.k10 < 256 ∧ k.k11 < 256 ∧
  k.k12 < 256 ∧ k.k13 < 256 ∧ k.k14 < 256 ∧ k.k15 < 256

/-- The all-zero key (`memset(encryption_key, 0, 16)`). -/
def Key16.zero : Key16 := ⟨0, 0, 0, 0, 0, 0, 0, 0, 0, 0, 0, 0, 0, 0, 0, 0⟩

/-- PAIRING_CONFIRM (coordinator → node, 26 bytes, marker `0x23`). -/
structure PairingConfirmMessage where
  coord_mac : Mac
  tower_id : Nat
  encryption_key : Key16
  config_flags : Nat
deriving DecidableEq, Repr

/-- Every field of the confirm is within its declared C++ type range. -/
def PairingConfirmMessage.wf (m : PairingConfirmMessage) : Prop :=
  m.coord_mac.wf ∧ m.tower_id < 2 ^ 16 ∧ m.encryption_key.wf ∧ m.config_flags < 256

/-- `PairingConfirmMessage::toBinary`. -/
def PairingConfirmMessage.toBinary (m : PairingConfirmMessage) : List Nat :=
  [0x23,
   m.coord_mac.b0, m.coord_mac.b1, m.coord_mac.b2, m.coord_mac.b3, m.coord_mac.b4, m.coord_mac.b5,
   byte0 m.tower_id, byte1 m.tower_id,
   m.encryption_key.k0, m.encryption_key.k1, m.encryption_key.k2, m.encryption_key.k3,
   m.encryption_key.k4, m.encryption_key.k5, m.encryption_key.k6, m.encryption_key.k7,
   m.encryption_key.k8, m.encryption_key.k9, m.encryption_key.k10, m.encryption_key.k11,
   m.encryption_key.k12, m.encryption_key.k13, m.encryption_key.k14, m.encryption_key.k15,
   m.config_flags]

/-- `PairingConfirmMessage::fromBinary`. -/
def PairingConfirmMessage.fromBinary : List Nat → Option PairingConfirmMessage
  | t :: m0 :: m1 :: m2 :: m3 :: m4 :: m5 :: w0 :: w1 ::
    e0 :: e1 :: e2 :: e3 :: e4 :: e5 :: e6 :: e7 ::
    e8 :: e9 :: e10 :: e11 :: e12 :: e13 :: e14 :: e15 :: cf :: _ =>
    if t = 0x23 then
      some { coord_mac := ⟨m0, m1, m2, m3, m4, m5⟩, tower_id := rd16 w0 w1,
             encryption_key := ⟨e0, e1, e2, e3, e4, e5, e6, e7, e8, e9, e10, e11, e12, e13, e14, e15⟩,
             config_flags := cf }
    else none
  | _ => none

/-- PAIRING_REJECT (coordinator → node, 12 bytes, marker `0x24`). -/
structure PairingRejectMessage where
  sender_mac : Mac
  reason_code : Nat
  offer_token : Nat
deriving DecidableEq, Repr

/-- Every field of the reject is within its declared C++ type range. -/
def PairingRejectMessage.wf (m : PairingRejectMessage) : Prop :=
  m.sender_mac.wf ∧ m.reason_code < 256 ∧ m.offer_token < 2 ^ 32

/-- `PairingRejectMessage::toBinary`. -/
def PairingRejectMessage.toBinary (m : PairingRejectMessage) : List Nat :=
  [0x24,
   m.sender_mac.b0, m.sender_mac.b1, m.sender_mac.b2, m.sender_mac.b3, m.sender_mac.b4, m.sender_mac.b5,
   m.reason_code,
   byte0 m.offer_token, byte1 m.offer_token, byte2 m.offer_token, byte3 m.offer_token]

/-- `PairingRejectMessage::fromBinary`. -/
def PairingRejectMessage.fromBinary : List Nat → Option PairingRejectMessage
  | t :: m0 :: m1 :: m2 :: m3 :: m4 :: m5 :: rc :: k0 :: k1 :: k2 :: k3 :: _ =>
    if t = 0x24 then
      some { sender_mac := ⟨m0, m1, m2, m3, m4, m5⟩, reason_code := rc,
             offer_token := rd32 k0 k1 k2 k3 }
    else none
  | _ => none

/-- PAIRING_ABORT (node → coordinator, 12 bytes, marker `0x25`). -/
structure PairingAbortMessage where
  sender_mac : Mac
  reason_code : Nat
  offer_token : Nat
deriving DecidableEq, Repr

/-- Every field of the abort is within its declared C++ type range. -/
def PairingAbortMessage.wf (m : PairingAbortMessage) : Prop :=
  m.sender_mac.wf ∧ m.reason_code < 256 ∧ m.offer_token < 2 ^ 32

/-- `PairingAbortMessage::toBinary`. -/
def PairingAbortMessage.toBinary (m : PairingAbortMessage) : List Nat :=
  [0x25,
   m.sender_mac.b0, m.sender_mac.b1, m.sender_mac.b2, m.sender_mac.b3, m.sender_mac.b4, m.sender_mac.b5,
   m.reason_code,
   byte0 m.offer_token, byte1 m.offer_token, byte2 m.offer_token, byte3 m.offer_token]

/-- `PairingAbortMessage::fromBinary`. -/
def PairingAbortMessage.fromBinary : List Nat → Option PairingAbortMessage
  | t :: m0 :: m1 :: m2 :: m3 :: m4 :: m5 :: rc :: k0 :: k1 :: k2 :: k3 :: _ =>
    if t = 0x25 then
      some { sender_mac := ⟨m0, m1, m2, m3, m4, m5⟩, reason_code := rc,
             offer_token := rd32 k0 k1 k2 k3 }
    else none
  | _ => none


/-! ### Codec lemmas -/

theorem adv_roundtrip (m : PairingAdvertisementMessage) (h : m.wf) :
    PairingAdvertisementMessage.fromBinary m.toBinary = some m := by
  obtain ⟨h1, hm, h2, h3, h4, h5, h6, h7, h8⟩ := h
  simp only [PairingAdvertisementMessage.toBinary, PairingAdvertisementMessage.fromBinary,
    if_pos rfl, rd32_bytes h3, rd16_bytes h4, rd32_bytes h5, rd16_bytes h6, int8_bytes h7 h8]
  rfl

theorem offer_roundtrip (m : PairingOfferMessage) (h : m.wf) :
    PairingOfferMessage.fromBinary m.toBinary = some m := by
  obtain ⟨h1, hm, h2, h3, h4, h5, h6, h7⟩ := h
  simp only [PairingOfferMessage.toBinary, PairingOfferMessage.fromBinary,
    if_pos rfl, rd16_bytes h2, rd16_bytes h3, rd16_bytes h4, rd32_bytes h5, rd32_bytes h6]
  rfl

theorem accept_roundtrip (m : PairingAcceptMessage) (h : m.wf) :
    PairingAcceptMessage.fromBinary m.toBinary = some m := by
  obtain ⟨hmac, htok, hid⟩ := h
  simp only [PairingAcceptMessage.toBinary, PairingAcceptMessage.fromBinary,
    if_pos rfl, rd32_bytes htok, rd16_bytes hid]
  rfl

theorem confirm_roundtrip (m : PairingConfirmMessage) (h : m.wf) :
    PairingConfirmMessage.fromBinary m.toBinary = some m := by
  obtain ⟨hmac, hid, hkey, hcf⟩ := h
  simp only [PairingConfirmMessage.toBinary, PairingConfirmMessage.fromBinary,
    if_pos rfl, rd16_bytes hid]
  rfl

theorem reject_roundtrip (m : PairingRejectMessage) (h : m.wf) :
    PairingRejectMessage.fromBinary m.toBinary = some m := by
  obtain ⟨hmac, hrc, htok⟩ := h
  simp only [PairingRejectMessage.toBinary, PairingRejectMessage.fromBinary,
    if_pos rfl, rd32_bytes htok]
  rfl

theorem abort_roundtrip (m : PairingAbortMessage) (h : m.wf) :
    PairingAbortMessage.fromBinary m.toBinary = some m := by
  obtain ⟨hmac, hrc, htok⟩ := h
  simp only [PairingAbortMessage.toBinary, PairingAbortMessage.fromBinary,
    if_pos rfl, rd32_bytes htok]
  rfl

theorem adv_fromBinary_none (buf : List Nat)
    (h : buf.length < 22 ∨ buf.headD 0 ≠ 0x20) :
    PairingAdvertisementMessage.fromBinary buf = none := by
  unfold PairingAdvertisementMessage.fromBinary
  split
  · rw [if_neg]
    intro ht
    rcases h with h | h
    · simp [List.length] at h; omega
    · simp [List.headD] at h; exact h ht
  · rfl

theorem offer_fromBinary_none (buf : List Nat)
    (h : buf.length < 23 ∨ buf.headD 0 ≠ 0x21) :
    PairingOfferMessage.fromBinary buf = none := by
  unfold PairingOfferMessage.fromBinary
  split
  · rw [if_neg]
    intro ht
    rcases h with h | h
    · simp [List.length] at h; omega
    · simp [List.headD] at h; exact h ht
  · rfl

theorem accept_fromBinary_none (buf : List Nat)
    (h : buf.length < 13 ∨ buf.headD 0 ≠ 0x22) :
    PairingAcceptMessage.fromBinary buf = none := by
  unfold PairingAcceptMessage.fromBinary
  split
  · rw [if_neg]
    intro ht
    rcases h with h | h
    · simp [List.length] at h; omega
    · simp [List.headD] at h; exact h ht
  · rfl

theorem confirm_fromBinary_none (buf : List Nat)
    (h : buf.length < 26 ∨ buf.headD 0 ≠ 0x23) :
    PairingConfirmMessage.fromBinary buf = none := by
  unfold PairingConfirmMessage.fromBinary
  split
  · rw [if_neg]
    intro ht
    rcases h with h | h
    · simp [List.length] at h; omega
    · simp [List.headD] at h; exact h ht
  · rfl

theorem reject_fromBinary_none (buf : List Nat)
    (h : buf.length < 12 ∨ buf.headD 0 ≠ 0x24) :
    PairingRejectMessage.fromBinary buf = none := by
  unfold PairingRejectMessage.fromBinary
  split
  · rw [if_neg]
    intro ht
    rcases h with h | h
    · simp [List.length] at h; omega
    · simp [List.headD] at h; exact h ht
  · rfl

theorem abort_fromBinary_none (buf : List Nat)
    (h : buf.length < 12 ∨ buf.headD 0 ≠ 0x25) :
    PairingAbortMessage.fromBinary buf = none := by
  unfold PairingAbortMessage.fromBinary
  split
  · rw [if_neg]
    intro ht
    rcases h with h | h
    · simp [List.length] at h; omega
    · simp [List.headD] at h; exact h ht
  · rfl


/-! ### Node-side pairing FSM (`NodePairingFSM.h/.cpp`) -/

/-- Node pairing states (`NodePairingState`). -/
inductive NodePairingState
  | INIT
  | UNPAIRED
  | ADVERTISING
  | OFFER_RECEIVED
  | WAITING_CONFIRM
  | BOUND
  | OPERATIONAL
deriving DecidableEq, Repr

/-- Result of a node pairing attempt (`NodePairingResult`). -/
inductive NodePairingResult
  | SUCCESS
  | TIMEOUT
  | REJECTED
  | USER_CANCELLED
  | NONCE_MISMATCH
  | TOKEN_MISMATCH
  | NVS_ERROR
  | INTERNAL_ERROR
deriving DecidableEq, Repr

/-- Node-side credential store (`TowerConfig` NVS keys written by
`saveCredentials`; `none` = key absent). -/
structure TowerConfigState where
  towerId : Option Nat
  coordMac : Option Mac
  lmk : Option Key16
  wifiChannel : Option Nat
deriving DecidableEq, Repr

/-- The empty credential store. -/
def TowerConfigState.empty : TowerConfigState :=
  { towerId := none, coordMac := none, lmk := none, wifiChannel := none }

/-- Observable effects of the node FSM: one event per callback invocation /
transport send attempt, in source order. -/
inductive NodeEvent
  | stateChanged (oldState newState : NodePairingState)
  | pairingComplete (result : NodePairingResult) (towerId : Nat)
  | sentAccept (coordMac : Mac) (m : PairingAcceptMessage)
  | sentAbort (coordMac : Mac) (m : PairingAbortMessage)
  | sentAdvertisement (m : PairingAdvertisementMessage)
deriving DecidableEq, Repr

/-- Environment of the node FSM: the optional transport callbacks
(`_sendAccept` etc. may be unset) and whether NVS writes succeed
(all-or-nothing rendering of the `ok &=` chain in `saveCredentials`). -/
structure NodeEnv where
  sendAdvertisement : Option (PairingAdvertisementMessage → Bool)
  sendAccept : Option (Mac → PairingAcceptMessage → Bool)
  sendAbort : Option (Mac → PairingAbortMessage → Bool)
  nvsOk : Bool

/-- The mutable fields of `NodePairingFSM` that the pairing handlers touch,
plus the credential store. -/
structure NodeFSM where
  state : NodePairingState
  nodeMac : Mac
  deviceType : Nat
  firmwareVersion : Nat
  capabilities : Nat
  sequenceNum : Nat
  currentNonce : Nat
  pendingCoordMac : Mac
  pendingOfferToken : Nat
  pendingTowerId : Nat
  acceptSentMs : Nat
  assignedTowerId : Nat
  config : TowerConfigState
deriving DecidableEq, Repr

/-- `NodePairingFSM::transitionTo`: no-op on equal states, otherwise fires
the state-changed callback. -/
def NodeFSM.transitionTo (f : NodeFSM) (newState : NodePairingState) :
    NodeFSM × List NodeEvent :=
  if f.state = newState then (f, [])
  else ({ f with state := newState }, [.stateChanged f.state newState])

/-- `NodePairingFSM::isPairing`. -/
def NodeFSM.isPairing (f : NodeFSM) : Bool :=
  f.state == .ADVERTISING || f.state == .OFFER_RECEIVED || f.state == .WAITING_CONFIRM

/-- `NodePairingFSM::completePairing`: clears the pending binding info,
transitions to `BOUND` on success and `UNPAIRED` otherwise, and fires the
pairing-complete callback. -/
def NodeFSM.completePairing (f : NodeFSM) (result : NodePairingResult) :
    NodeFSM × List NodeEvent :=
  let towerId := if result = .SUCCESS then f.assignedTowerId else 0
  let f1 := { f with pendingOfferToken := 0, pendingTowerId := 0, pendingCoordMac := Mac.zero }
  let (f2, evs) := f1.transitionTo (if result = .SUCCESS then .BOUND else .UNPAIRED)
  (f2, evs ++ [.pairingComplete result towerId])

/-- `NodePairingFSM::onPairingOfferReceived`: only in `ADVERTISING`; checks
protocol version, then the nonce echo (aborting with `NONCE_MISMATCH` on
mismatch); on success stores the pending binding info and sends
PAIRING_ACCEPT.  `now` is `millis()` at the call. -/
def NodeFSM.onPairingOfferReceived (f : NodeFSM) (env : NodeEnv)
    (offer : PairingOfferMessage) (now : Nat) : Bool × NodeFSM × List NodeEvent :=
  if f.state ≠ .ADVERTISING then (false, f, [])
  else if offer.protocol_version ≠ PROTOCOL_VERSION then (false, f, [])
  else if offer.nonce_echo ≠ f.currentNonce then
    let (f1, evs) := f.completePairing .NONCE_MISMATCH
    (false, f1, evs)
  else
    let f1 := { f with pendingCoordMac := offer.coord_mac,
                       pendingOfferToken := offer.offer_token,
                       pendingTowerId := offer.offered_tower_id }
    let (f2, evs1) := f1.transitionTo .OFFER_RECEIVED
    match env.sendAccept with
    | none =>
      let (f3, evs2) := f2.transitionTo .ADVERTISING
      (false, f3, evs1 ++ evs2)
    | some send =>
      let accept : PairingAcceptMessage :=
        { node_mac := f.nodeMac, offer_token := offer.offer_token,
          accepted_tower_id := offer.offered_tower_id }
      if send f1.pendingCoordMac accept then
        let (f3, evs2) := NodeFSM.transitionTo { f2 with acceptSentMs := now } .WAITING_CONFIRM
        (true, f3, evs1 ++ [.sentAccept f1.pendingCoordMac accept] ++ evs2)
      else
        let (f3, evs2) := f2.transitionTo .ADVERTISING
        (false, f3, evs1 ++ [.sentAccept f1.pendingCoordMac accept] ++ evs2)

/-- `NodePairingFSM::saveCredentials`: writes tower id, coordinator address,
the session key when the encryption flag (bit 0 of `config_flags`) is set,
and the channel (upper nibble of `config_flags`) when it is in 1..13. -/
def NodeFSM.saveCredentials (f : NodeFSM) (env : NodeEnv)
    (confirm : PairingConfirmMessage) : Bool × NodeFSM :=
  if env.nvsOk then
    let cfg1 := { f.config with towerId := some confirm.tower_id,
                                coordMac := some confirm.coord_mac }
    let cfg2 := if confirm.config_flags % 2 = 1
      then { cfg1 with lmk := some confirm.encryption_key } else cfg1
    let channel := confirm.config_flags / 16
    let cfg3 := if 0 < channel ∧ channel ≤ 13
      then { cfg2 with wifiChannel := some channel } else cfg2
    (true, { f with config := cfg3 })
  else (false, f)

/-- `NodePairingFSM::onPairingConfirmReceived`: only in `WAITING_CONFIRM`;
validates sender address and tower id, persists credentials, completes with
`SUCCESS` (or `NVS_ERROR` on persistence failure). -/
def NodeFSM.onPairingConfirmReceived (f : NodeFSM) (env : NodeEnv)
    (confirm : PairingConfirmMessage) : Bool × NodeFSM × List NodeEvent :=
  if f.state ≠ .WAITING_CONFIRM then (false, f, [])
  else if confirm.coord_mac ≠ f.pendingCoordMac then (false, f, [])
  else if confirm.tower_id ≠ f.pendingTowerId then
    let (f1, evs) := f.completePairing .TOKEN_MISMATCH
    (false, f1, evs)
  else
    let (ok, f1) := f.saveCredentials env confirm
    if ok then
      let f2 := { f1 with assignedTowerId := confirm.tower_id }
      let (f3, evs) := f2.completePairing .SUCCESS
      (true, f3, evs)
    else
      let (f2, evs) := f1.completePairing .NVS_ERROR
      (false, f2, evs)

/-- `NodePairingFSM::onPairingRejectReceived`: accepted in any pairing state;
in `WAITING_CONFIRM` a non-zero token must match the pending one; completes
with `REJECTED`. -/
def NodeFSM.onPairingRejectReceived (f : NodeFSM) (reject : PairingRejectMessage) :
    Bool × NodeFSM × List NodeEvent :=
  if ¬ f.isPairing then (false, f, [])
  else if f.state = .WAITING_CONFIRM ∧ reject.offer_token ≠ f.pendingOfferToken ∧
          reject.offer_token ≠ 0 then
    (false, f, [])
  else
    let (f1, evs) := f.completePairing .REJECTED
    (true, f1, evs)


/-! ### Coordinator-side discovery table (`DiscoveryManager.h/.cpp`) -/

/-- Maximum number of discovered nodes (`MAX_DISCOVERED_NODES`). -/
def MAX_DISCOVERED_NODES : Nat := 32

/-- TTL for discovered nodes in milliseconds (`DISCOVERY_TTL_MS`). -/
def DISCOVERY_TTL_MS : Nat := 30000

/-- State of a discovered node in the pairing process (`DiscoveryState`). -/
inductive DiscoveryState
  | DISCOVERED
  | PENDING
  | OFFER_SENT
  | BINDING
  | BOUND
  | REJECTED
  | FAILED
deriving DecidableEq, Repr

/-- One entry of the discovery table (`DiscoveredNode`). -/
structure DiscoveredNode where
  mac : Mac
  device_type : Nat
  firmware_version : Nat
  capabilities : Nat
  last_nonce : Nat
  last_sequence : Nat
  rssi : Int
  first_seen_ms : Nat
  last_seen_ms : Nat
  state : DiscoveryState
  offer_token : Nat
deriving DecidableEq, Repr

/-- The `DiscoveredNode` default constructor (zeroed fields, `DISCOVERED`,
device type `TOWER = 1`... the C++ constructor sets `device_type(DeviceType::TOWER)`). -/
def DiscoveredNode.default : DiscoveredNode :=
  { mac := Mac.zero, device_type := 1, firmware_version := 0, capabilities := 0,
    last_nonce := 0, last_sequence := 0, rssi := 0, first_seen_ms := 0,
    last_seen_ms := 0, state := .DISCOVERED, offer_token := 0 }

/-- `DiscoveredNode::isExpired`: `BOUND` entries never expire; otherwise the
entry is expired when `(now - last_seen_ms) > DISCOVERY_TTL_MS` in wraparound
arithmetic. -/
def DiscoveredNode.isExpired (n : DiscoveredNode) (now : Nat) : Bool :=
  if n.state = .BOUND then false
  else decide (DISCOVERY_TTL_MS < u32sub now n.last_seen_ms)

/-- Discovery events, one per callback invocation of the manager. -/
inductive DiscoveryEvent
  | discovered (n : DiscoveredNode)
  | updated (n : DiscoveredNode)
  | expired (n : DiscoveredNode)
  | stateChanged (n : DiscoveredNode) (oldState newState : DiscoveryState)
deriving DecidableEq, Repr

/-- `DiscoveryManager::findByMac` / `findNodeIndex`: first entry with the
given address in the linear-scan table. -/
def findByMac : List DiscoveredNode → Mac → Option DiscoveredNode
  | [], _ => none
  | n :: rest, mac => if n.mac = mac then some n else findByMac rest mac

/-- In-place mutation of the entry found by `findNodeIndex`: replace the
first entry with the given address. -/
def replaceByMac : List DiscoveredNode → Mac → DiscoveredNode → List DiscoveredNode
  | [], _, _ => []
  | n :: rest, mac, n' => if n.mac = mac then n' :: rest else n :: replaceByMac rest mac n'

/-- `DiscoveryManager::removeNode`'s erase: drop the first entry with the
given address. -/
def removeByMac : List DiscoveredNode → Mac → List DiscoveredNode
  | [], _ => []
  | n :: rest, mac => if n.mac = mac then rest else n :: removeByMac rest mac

namespace DiscoveryManager

/-- `DiscoveryManager::getDiscoveredCount`: entries not expired at `now`. -/
def getDiscoveredCount (nodes : List DiscoveredNode) (now : Nat) : Nat :=
  (nodes.filter (fun n => ¬ n.isExpired now)).length

/-- `DiscoveryManager::hasCapacity`. -/
def hasCapacity (nodes : List DiscoveredNode) (now : Nat) : Bool :=
  getDiscoveredCount nodes now < MAX_DISCOVERED_NODES

/-- The in-place update applied by `onAdvertisementReceived` to a known
entry: refresh last-seen fields and the firmware/capability/type fields. -/
def updatedEntry (node : DiscoveredNode) (msg : PairingAdvertisementMessage)
    (rssi : Int) (now : Nat) : DiscoveredNode :=
  { node with last_nonce := msg.nonce, last_sequence := msg.sequence_num,
              last_seen_ms := now, rssi := rssi,
              firmware_version := msg.firmware_version,
              capabilities := msg.capabilities, device_type := msg.device_type }

/-- `DiscoveryManager::onAdvertisementReceived`: duplicate (nonce, sequence)
pairs for a known address are dropped; otherwise the entry is updated (or a
new `DISCOVERED` entry is appended, subject to capacity) and the
updated/discovered callback fires. -/
def onAdvertisementReceived (nodes : List DiscoveredNode)
    (msg : PairingAdvertisementMessage) (rssi : Int) (now : Nat) :
    Bool × List DiscoveredNode × List DiscoveryEvent :=
  match findByMac nodes msg.node_mac with
  | some node =>
    if node.last_nonce = msg.nonce ∧ node.last_sequence = msg.sequence_num then
      (false, nodes, [])
    else
      let node' := updatedEntry node msg rssi now
      (true, replaceByMac nodes msg.node_mac node', [.updated node'])
  | none =>
    if ¬ hasCapacity nodes now then (false, nodes, [])
    else
      let newNode : DiscoveredNode :=
        { mac := msg.node_mac, device_type := msg.device_type,
          firmware_version := msg.firmware_version, capabilities := msg.capabilities,
          last_nonce := msg.nonce, last_sequence := msg.sequence_num, rssi := rssi,
          first_seen_ms := now, last_seen_ms := now, state := .DISCOVERED,
          offer_token := 0 }
      (true, nodes ++ [newNode], [.discovered newNode])

/-- `DiscoveryManager::updateNodeState`: fires the state-changed callback
only on an actual change. -/
def updateNodeState (nodes : List DiscoveredNode) (mac : Mac) (newState : DiscoveryState) :
    Bool × List DiscoveredNode × List DiscoveryEvent :=
  match findByMac nodes mac with
  | none => (false, nodes, [])
  | some node =>
    if node.state = newState then (true, nodes, [])
    else
      let node' := { node with state := newState }
      (true, replaceByMac nodes mac node', [.stateChanged node' node.state newState])

/-- `DiscoveryManager::setOfferToken`. -/
def setOfferToken (nodes : List DiscoveredNode) (mac : Mac) (token : Nat) :
    Bool × List DiscoveredNode :=
  match findByMac nodes mac with
  | none => (false, nodes)
  | some node => (true, replaceByMac nodes mac { node with offer_token := token })

/-- `DiscoveryManager::removeNode`. -/
def removeNode (nodes : List DiscoveredNode) (mac : Mac) :
    Bool × List DiscoveredNode :=
  match findByMac nodes mac with
  | none => (false, nodes)
  | some _ => (true, removeByMac nodes mac)

/-- `DiscoveryManager::clearAll`: keep only `BOUND` entries. -/
def clearAll (nodes : List DiscoveredNode) : List DiscoveredNode :=
  nodes.filter (fun n => n.state = .BOUND)

end DiscoveryManager


/-! ### Coordinator pairing state machine (`PairingStateMachine.h/.cpp`) -/

/-- Binding timeout waiting for PAIRING_ACCEPT (`BINDING_TIMEOUT_MS`). -/
def BINDING_TIMEOUT_MS : Nat := 10000

/-- Maximum permit-join window (`PairingConstants::MAX_PERMIT_JOIN_MS`). -/
def MAX_PERMIT_JOIN_MS : Nat := 300000

/-! Reason codes used by the coordinator/node logic (values of the C++
`PairingRejectReason` enum; the codec carries them as raw bytes). -/
namespace PairingRejectReason

/-- `PairingRejectReason::TIMEOUT`. -/
def TIMEOUT : Nat := 4

/-- `PairingRejectReason::USER_REJECTED`. -/
def USER_REJECTED : Nat := 5

/-- `PairingRejectReason::NODE_CANCELLED`. -/
def NODE_CANCELLED : Nat := 8

end PairingRejectReason

/-- Coordinator pairing states (`CoordinatorPairingState`). -/
inductive CoordinatorPairingState
  | OPERATIONAL
  | DISCOVERY_ACTIVE
  | BINDING
deriving DecidableEq, Repr

/-- Result of a binding attempt (`BindingResult`). -/
inductive BindingResult
  | SUCCESS
  | TIMEOUT
  | NODE_REJECTED
  | NODE_ABORTED
  | INTERNAL_ERROR
  | ALREADY_BOUND
deriving DecidableEq, Repr

/-- Overflow-safe deadline timer (`Deadline` in `SafeTimer.h`). -/
structure Deadline where
  startMs : Nat
  durationMs : Nat
  active : Bool
deriving DecidableEq, Repr

/-- `Deadline::expired`: `(millis() - startMs_) >= durationMs_` when active. -/
def Deadline.expired (d : Deadline) (now : Nat) : Bool :=
  d.active && decide (d.durationMs ≤ u32sub now d.startMs)

/-- `Deadline::running`: active and not expired. -/
def Deadline.running (d : Deadline) (now : Nat) : Bool :=
  d.active && ! d.expired now

/-- `Deadline::clear`. -/
def Deadline.clear (d : Deadline) : Deadline := { d with active := false }

/-- `Deadline::set`: start a deadline of the given duration now. -/
def Deadline.set (now durationMs : Nat) : Deadline :=
  { startMs := now, durationMs := durationMs, active := true }

/-- The single in-flight binding attempt (`BindingAttempt`). -/
structure BindingAttempt where
  node_mac : Mac
  offer_token : Nat
  assigned_tower_id : Nat
  started_ms : Nat
  accept_received : Bool
deriving DecidableEq, Repr

/-- The `BindingAttempt` default constructor. -/
def BindingAttempt.default : BindingAttempt :=
  { node_mac := Mac.zero, offer_token := 0, assigned_tower_id := 0,
    started_ms := 0, accept_received := false }

/-- `BindingAttempt::isTimedOut`: `(now - started_ms) > BINDING_TIMEOUT_MS`
in wraparound arithmetic. -/
def BindingAttempt.isTimedOut (b : BindingAttempt) (now : Nat) : Bool :=
  decide (BINDING_TIMEOUT_MS < u32sub now b.started_ms)

/-- Observable effects of the coordinator, one event per callback
invocation / transport send attempt, in source order. -/
inductive CoordEvent
  | permitJoinChanged (enabled : Bool) (ms : Nat)
  | bindingStarted (n : DiscoveredNode)
  | bindingCompleted (n : DiscoveredNode) (result : BindingResult)
  | sentOffer (mac : Mac) (m : PairingOfferMessage)
  | sentConfirm (mac : Mac) (m : PairingConfirmMessage)
  | sentReject (mac : Mac) (m : PairingRejectMessage)
  | discovery (e : DiscoveryEvent)
deriving DecidableEq, Repr

/-- Environment of the coordinator: the optional transport send callbacks. -/
structure CoordEnv where
  sendOffer : Option (Mac → PairingOfferMessage → Bool)
  sendConfirm : Option (Mac → PairingConfirmMessage → Bool)
  sendReject : Option (Mac → PairingRejectMessage → Bool)

/-- The mutable fields of `PairingStateMachine`, with the discovery table it
owns by reference inlined as `nodes`. -/
structure Coordinator where
  state : CoordinatorPairingState
  coordinatorMac : Mac
  coordinatorId : Nat
  farmId : Nat
  nextTowerId : Nat
  permitJoinDl : Deadline
  currentBinding : BindingAttempt
  bindingActive : Bool
  nodes : List DiscoveredNode
deriving DecidableEq, Repr

/-- `PairingStateMachine::transitionTo` (log-only; no callback fires). -/
def Coordinator.transitionTo (c : Coordinator) (s : CoordinatorPairingState) : Coordinator :=
  { c with state := s }

/-- `PairingStateMachine::completeBinding`: copies the node entry for the
callback, marks it `BOUND` (incrementing the tower-id allocator) on success
and `FAILED` otherwise, clears the transient attempt, and returns to
`DISCOVERY_ACTIVE` or `OPERATIONAL` depending on the permit-join window. -/
def Coordinator.completeBinding (c : Coordinator) (result : BindingResult) (now : Nat) :
    Coordinator × List CoordEvent :=
  if ¬ c.bindingActive then (c, [])
  else
    let nodeCopy := match findByMac c.nodes c.currentBinding.node_mac with
      | some n => n
      | none => { DiscoveredNode.default with mac := c.currentBinding.node_mac,
                                              state := .FAILED }
    let (c1, evs1) :=
      if result = .SUCCESS then
        let (_, nodes1, des) :=
          DiscoveryManager.updateNodeState c.nodes c.currentBinding.node_mac .BOUND
        ({ c with nodes := nodes1, nextTowerId := (c.nextTowerId + 1) % 2 ^ 16 },
         des.map CoordEvent.discovery)
      else
        let (_, nodes1, des) :=
          DiscoveryManager.updateNodeState c.nodes c.currentBinding.node_mac .FAILED
        ({ c with nodes := nodes1 }, des.map CoordEvent.discovery)
    let c2 := { c1 with bindingActive := false,
                        currentBinding := { c1.currentBinding with node_mac := Mac.zero,
                                                                   offer_token := 0 } }
    let c3 := if c2.permitJoinDl.running now then c2.transitionTo .DISCOVERY_ACTIVE
              else c2.transitionTo .OPERATIONAL
    (c3, evs1 ++ [CoordEvent.bindingCompleted nodeCopy result])

/-- `PairingStateMachine::handleBindingTimeout`: notify the node with a
Reject (reason `TIMEOUT`, carrying the attempt token) when the send callback
is wired, then complete the attempt as `TIMEOUT`. -/
def Coordinator.handleBindingTimeout (c : Coordinator) (env : CoordEnv) (now : Nat) :
    Coordinator × List CoordEvent :=
  if ¬ c.bindingActive then (c, [])
  else
    let evs := match env.sendReject with
      | some _ =>
        let reject : PairingRejectMessage :=
          { sender_mac := c.coordinatorMac, reason_code := PairingRejectReason.TIMEOUT,
            offer_token := c.currentBinding.offer_token }
        [CoordEvent.sentReject c.currentBinding.node_mac reject]
      | none => []
    let (c1, evs1) := c.completeBinding .TIMEOUT now
    (c1, evs ++ evs1)

/-- `PairingStateMachine::disablePermitJoin`: force-complete an active
binding as `INTERNAL_ERROR`, clear the window, go `OPERATIONAL`, clear all
non-bound discovery entries. -/
def Coordinator.disablePermitJoin (c : Coordinator) (now : Nat) :
    Coordinator × List CoordEvent :=
  let (c1, evs1) :=
    if c.state = .BINDING ∧ c.bindingActive then c.completeBinding .INTERNAL_ERROR now
    else (c, [])
  let c2 := { c1 with permitJoinDl := c1.permitJoinDl.clear }
  let c3 := c2.transitionTo .OPERATIONAL
  let c4 := { c3 with nodes := DiscoveryManager.clearAll c3.nodes }
  (c4, evs1 ++ [CoordEvent.permitJoinChanged false 0])

/-- `PairingStateMachine::enablePermitJoin`: clamps the duration to
`MAX_PERMIT_JOIN_MS`; allowed from `OPERATIONAL` (transitions to
`DISCOVERY_ACTIVE`) or `DISCOVERY_ACTIVE` (refreshes the deadline); refused
while `BINDING`. -/
def Coordinator.enablePermitJoin (c : Coordinator) (durationMs now : Nat) :
    Bool × Coordinator × List CoordEvent :=
  let d := if durationMs > MAX_PERMIT_JOIN_MS then MAX_PERMIT_JOIN_MS else durationMs
  if c.state ≠ .OPERATIONAL ∧ c.state ≠ .DISCOVERY_ACTIVE then (false, c, [])
  else
    let c1 := { c with permitJoinDl := Deadline.set now d }
    let c2 := if c1.state = .OPERATIONAL then c1.transitionTo .DISCOVERY_ACTIVE else c1
    (true, c2, [CoordEvent.permitJoinChanged true d])

/-- The PAIRING_OFFER built inside `approveNode` for a discovered node and a
fresh token: echoes the node's last advertisement nonce and carries the next
unallocated tower id. -/
def Coordinator.buildOffer (c : Coordinator) (node : DiscoveredNode) (token : Nat) :
    PairingOfferMessage :=
  { protocol_version := PROTOCOL_VERSION, coord_mac := c.coordinatorMac,
    coord_id := c.coordinatorId, farm_id := c.farmId,
    offered_tower_id := c.nextTowerId, nonce_echo := node.last_nonce,
    offer_token := token, channel := 0 }

/-- `PairingStateMachine::approveNode`: only in `DISCOVERY_ACTIVE` with no
active binding; looks the node up, opens the binding attempt, marks the
entry `OFFER_SENT` with the token and sends the offer; a send failure rolls
back (`bindingActive := false`, entry back to `DISCOVERED`).  `token` is the
fresh `esp_random()` offer token, `now` is `millis()`. -/
def Coordinator.approveNode (c : Coordinator) (env : CoordEnv) (mac : Mac)
    (token now : Nat) : Bool × Coordinator × List CoordEvent :=
  if c.state ≠ .DISCOVERY_ACTIVE then (false, c, [])
  else if c.bindingActive then (false, c, [])
  else match findByMac c.nodes mac with
    | none => (false, c, [])
    | some node =>
      if node.state = .BOUND then (false, c, [])
      else match env.sendOffer with
        | none => (false, c, [])
        | some send =>
          let offer := c.buildOffer node token
          let c1 := { c with
            currentBinding := { node_mac := mac, offer_token := token,
                                assigned_tower_id := c.nextTowerId, started_ms := now,
                                accept_received := false },
            bindingActive := true }
          let (_, nodes1, des1) := DiscoveryManager.updateNodeState c1.nodes mac .OFFER_SENT
          let (_, nodes2) := DiscoveryManager.setOfferToken nodes1 mac token
          let c2 := { c1 with nodes := nodes2 }
          if send mac offer then
            let c3 := c2.transitionTo .BINDING
            let nodeAfter := { node with state := .OFFER_SENT, offer_token := token }
            (true, c3, des1.map CoordEvent.discovery ++ [CoordEvent.sentOffer mac offer, CoordEvent.bindingStarted nodeAfter])
          else
            let c3 := { c2 with bindingActive := false }
            let (_, nodes3, des2) := DiscoveryManager.updateNodeState c3.nodes mac .DISCOVERED
            (false, { c3 with nodes := nodes3 },
             des1.map CoordEvent.discovery ++ [CoordEvent.sentOffer mac offer] ++ des2.map CoordEvent.discovery)

/-- The removal tail of `onPairingAbortReceived`: when the sender was found
in the table, mark it `FAILED` and remove it; always returns `true`. -/
def Coordinator.finishAbort (c : Coordinator) (evs : List CoordEvent) (mac : Mac)
    (nodeOpt : Option DiscoveredNode) : Bool × Coordinator × List CoordEvent :=
  match nodeOpt with
  | some _ =>
    let (_, nodes1, des1) := DiscoveryManager.updateNodeState c.nodes mac .FAILED
    let (_, nodes2) := DiscoveryManager.removeNode nodes1 mac
    (true, { c with nodes := nodes2 }, evs ++ des1.map CoordEvent.discovery)
  | none => (true, c, evs)

/-- `PairingStateMachine::onPairingAbortReceived`: if the abort names the
currently-binding node, a non-matching token (against a non-zero attempt
token) is ignored, a matching one completes the attempt as `NODE_ABORTED`;
in every non-ignored case a sender found in the table is marked `FAILED`
and removed. -/
def Coordinator.onPairingAbortReceived (c : Coordinator) (msg : PairingAbortMessage)
    (now : Nat) : Bool × Coordinator × List CoordEvent :=
  let nodeOpt := findByMac c.nodes msg.sender_mac
  if c.bindingActive ∧ c.currentBinding.node_mac = msg.sender_mac then
    if c.currentBinding.offer_token ≠ 0 ∧ msg.offer_token ≠ c.currentBinding.offer_token then
      (false, c, [])
    else
      let (c1, evs1) := c.completeBinding .NODE_ABORTED now
      c1.finishAbort evs1 msg.sender_mac nodeOpt
  else c.finishAbort [] msg.sender_mac nodeOpt

/-- `PairingStateMachine::tick`: close the permit-join window when it has
expired in `DISCOVERY_ACTIVE`; fire the binding timeout in `BINDING`. -/
def Coordinator.tick (c : Coordinator) (env : CoordEnv) (now : Nat) :
    Coordinator × List CoordEvent :=
  let (c1, evs1) :=
    if c.state = .DISCOVERY_ACTIVE ∧ c.permitJoinDl.expired now then c.disablePermitJoin now
    else (c, [])
  let (c2, evs2) :=
    if c1.state = .BINDING ∧ c1.bindingActive ∧ c1.currentBinding.isTimedOut now
    then c1.handleBindingTimeout env now
    else (c1, [])
  (c2, evs1 ++ evs2)


/-! ### Discovery-table lemmas -/

theorem findByMac_mac {nodes : List DiscoveredNode} {mac : Mac} {n : DiscoveredNode}
    (h : findByMac nodes mac = some n) : n.mac = mac := by
  induction nodes with
  | nil => simp [findByMac] at h
  | cons m rest ih =>
    by_cases hm : m.mac = mac
    · simp [findByMac, hm] at h
      subst h; exact hm
    · simp [findByMac, hm] at h
      exact ih h

theorem findByMac_replaceByMac_self {nodes : List DiscoveredNode} {mac : Mac}
    {n : DiscoveredNode} (n' : DiscoveredNode) (hm : n'.mac = mac)
    (h : findByMac nodes mac = some n) :
    findByMac (replaceByMac nodes mac n') mac = some n' := by
  induction nodes with
  | nil => simp [findByMac] at h
  | cons m rest ih =>
    by_cases hmm : m.mac = mac
    · simp [replaceByMac, findByMac, hmm, hm]
    · simp only [findByMac, if_neg hmm] at h
      simp only [replaceByMac, if_neg hmm, findByMac]
      exact ih h

/-- C5: whenever the discovery table already holds 32 live (non-expired)
entries, `onAdvertisementReceived` for an address not present in the table
returns false, fires no callback and leaves the table unchanged. -/
theorem C5_capacity_enforcement (nodes : List DiscoveredNode)
    (msg : PairingAdvertisementMessage) (rssi : Int) (now : Nat)
    (habsent : findByMac nodes msg.node_mac = none)
    (hfull : DiscoveryManager.getDiscoveredCount nodes now = 32) :
    DiscoveryManager.onAdvertisementReceived nodes msg rssi now = (false, nodes, []) := by
  simp [DiscoveryManager.onAdvertisementReceived, habsent, DiscoveryManager.hasCapacity,
    hfull, MAX_DISCOVERED_NODES]

/-- C6: for an address already in the table, an advertisement whose
(nonce, sequence) pair equals the stored pair is dropped with no event and
no change; a fresh pair updates the entry with exactly one `updated` event,
after which resubmitting the same advertisement is a no-op — two
submissions yield exactly one event. -/
theorem C6_duplicate_suppression (nodes : List DiscoveredNode)
    (msg : PairingAdvertisementMessage) (rssi : Int) (now now2 : Nat)
    (node : DiscoveredNode)
    (hfound : findByMac nodes msg.node_mac = some node) :
    ((node.last_nonce = msg.nonce ∧ node.last_sequence = msg.sequence_num) →
      DiscoveryManager.onAdvertisementReceived nodes msg rssi now = (false, nodes, []))
    ∧ (¬ (node.last_nonce = msg.nonce ∧ node.last_sequence = msg.sequence_num) →
      (DiscoveryManager.onAdvertisementReceived nodes msg rssi now).1 = true
      ∧ (∃ n, (DiscoveryManager.onAdvertisementReceived nodes msg rssi now).2.2 =
          [DiscoveryEvent.updated n])
      ∧ DiscoveryManager.onAdvertisementReceived
          (DiscoveryManager.onAdvertisementReceived nodes msg rssi now).2.1 msg rssi now2 =
        (false, (DiscoveryManager.onAdvertisementReceived nodes msg rssi now).2.1, [])) := by
  constructor
  · intro hdup
    simp [DiscoveryManager.onAdvertisementReceived, hfound, hdup]
  · intro hnew
    have hmac : node.mac = msg.node_mac := findByMac_mac hfound
    have hr : DiscoveryManager.onAdvertisementReceived nodes msg rssi now =
        (true, replaceByMac nodes msg.node_mac (DiscoveryManager.updatedEntry node msg rssi now),
         [DiscoveryEvent.updated (DiscoveryManager.updatedEntry node msg rssi now)]) := by
      simp [DiscoveryManager.onAdvertisementReceived, hfound, hnew]
    have hm2 : (DiscoveryManager.updatedEntry node msg rssi now).mac = msg.node_mac := by
      simp [DiscoveryManager.updatedEntry, hmac]
    have hfind2 : findByMac
        (replaceByMac nodes msg.node_mac (DiscoveryManager.updatedEntry node msg rssi now))
        msg.node_mac = some (DiscoveryManager.updatedEntry node msg rssi now) :=
      findByMac_replaceByMac_self _ hm2 hfound
    refine ⟨by rw [hr], ⟨DiscoveryManager.updatedEntry node msg rssi now, by rw [hr]⟩, ?_⟩
    rw [hr]
    simp only [DiscoveryManager.updatedEntry] at hfind2
    simp [DiscoveryManager.onAdvertisementReceived, DiscoveryManager.updatedEntry, hfind2]


/-! ### Node FSM theorems -/

/-- Concrete node FSM in `ADVERTISING` holding nonce 1. -/
def advNodeFSM : NodeFSM :=
  { state := .ADVERTISING, nodeMac := ⟨1, 2, 3, 4, 5, 6⟩, deviceType := 1,
    firmwareVersion := 0x010000, capabilities := 0, sequenceNum := 0,
    currentNonce := 1, pendingCoordMac := Mac.zero, pendingOfferToken := 0,
    pendingTowerId := 0, acceptSentMs := 0, assignedTowerId := 0,
    config := TowerConfigState.empty }

/-- Concrete node FSM in `WAITING_CONFIRM` with pending token 7. -/
def waitingNodeFSM : NodeFSM :=
  { advNodeFSM with state := .WAITING_CONFIRM, pendingOfferToken := 7,
                    pendingCoordMac := ⟨9, 8, 7, 6, 5, 4⟩, pendingTowerId := 5 }

/-- Environment with all transport callbacks wired and NVS healthy. -/
def allWiredEnv : NodeEnv :=
  { sendAdvertisement := some fun _ => true, sendAccept := some fun _ _ => true,
    sendAbort := some fun _ _ => true, nvsOk := true }

/-- An offer with the correct protocol version whose nonce echo (2) differs
from `advNodeFSM`'s current nonce (1). -/
def staleNonceOffer : PairingOfferMessage :=
  { protocol_version := 2, coord_mac := ⟨9, 8, 7, 6, 5, 4⟩, coord_id := 1,
    farm_id := 1, offered_tower_id := 5, nonce_echo := 2, offer_token := 7,
    channel := 0 }

/-- The same stale-nonce offer with a mismatched protocol version. -/
def staleNonceOfferBadVersion : PairingOfferMessage :=
  { staleNonceOffer with protocol_version := 1 }

/-- C1, as stated, is false on the code: (a) after a nonce-mismatch offer
received in `ADVERTISING`, the node is in `UNPAIRED`, not `ADVERTISING`
(`completePairing` transitions every non-success result to `UNPAIRED`); and
(b) when the stale-nonce offer also has a protocol-version mismatch, the
handler returns false without firing any callback, so no `NONCE_MISMATCH`
result is reported. -/
theorem C1_claim_counterexample :
    ((advNodeFSM.onPairingOfferReceived allWiredEnv staleNonceOffer 0).2.1.state =
        NodePairingState.UNPAIRED
      ∧ NodePairingState.UNPAIRED ≠ NodePairingState.ADVERTISING)
    ∧ ((advNodeFSM.onPairingOfferReceived allWiredEnv staleNonceOfferBadVersion 0).1 = false
      ∧ (advNodeFSM.onPairingOfferReceived allWiredEnv staleNonceOfferBadVersion 0).2.2 = []) := by
  decide

/-- C1 (amended): while the node is `ADVERTISING`, an offer whose protocol
version matches but whose `nonce_echo` differs from the currently-held
nonce makes `onPairingOfferReceived` return false, fire exactly the
state-changed and pairing-complete (`NONCE_MISMATCH`) callbacks — so no
Accept is sent — record no credentials, and transition the node to
`UNPAIRED`. -/
theorem C1_nonce_mismatch_aborts_to_unpaired (f : NodeFSM) (env : NodeEnv)
    (offer : PairingOfferMessage) (now : Nat)
    (hs : f.state = .ADVERTISING)
    (hpv : offer.protocol_version = PROTOCOL_VERSION)
    (hn : offer.nonce_echo ≠ f.currentNonce) :
    (f.onPairingOfferReceived env offer now).1 = false
    ∧ (f.onPairingOfferReceived env offer now).2.2 =
        [NodeEvent.stateChanged .ADVERTISING .UNPAIRED,
         NodeEvent.pairingComplete .NONCE_MISMATCH 0]
    ∧ (f.onPairingOfferReceived env offer now).2.1.config = f.config
    ∧ (f.onPairingOfferReceived env offer now).2.1.state = .UNPAIRED := by
  simp [NodeFSM.onPairingOfferReceived, NodeFSM.completePairing, NodeFSM.transitionTo,
    hs, hpv, hn]

/-- Witness for the amended C1 theorem at a concrete input. -/
theorem C1_nonce_mismatch_witness :
    (advNodeFSM.onPairingOfferReceived allWiredEnv staleNonceOffer 0).1 = false
    ∧ (advNodeFSM.onPairingOfferReceived allWiredEnv staleNonceOffer 0).2.2 =
        [NodeEvent.stateChanged .ADVERTISING .UNPAIRED,
         NodeEvent.pairingComplete .NONCE_MISMATCH 0]
    ∧ (advNodeFSM.onPairingOfferReceived allWiredEnv staleNonceOffer 0).2.1.config =
        advNodeFSM.config
    ∧ (advNodeFSM.onPairingOfferReceived allWiredEnv staleNonceOffer 0).2.1.state =
        .UNPAIRED :=
  C1_nonce_mismatch_aborts_to_unpaired advNodeFSM allWiredEnv staleNonceOffer 0
    rfl rfl (by decide)

/-- C10: in `ADVERTISING` or `OFFER_RECEIVED` every reject is accepted
(no token or sender check) and completes pairing as `REJECTED` back to
`UNPAIRED`; in `WAITING_CONFIRM` a token-0 reject is also accepted, while a
non-zero token differing from the pending one is ignored with no change. -/
theorem C10_reject_acceptance (f : NodeFSM) (reject : PairingRejectMessage) :
    ((f.state = .ADVERTISING ∨ f.state = .OFFER_RECEIVED) →
      (f.onPairingRejectReceived reject).1 = true
      ∧ (f.onPairingRejectReceived reject).2.1.state = .UNPAIRED
      ∧ NodeEvent.pairingComplete .REJECTED 0 ∈ (f.onPairingRejectReceived reject).2.2)
    ∧ (f.state = .WAITING_CONFIRM → reject.offer_token = 0 →
      (f.onPairingRejectReceived reject).1 = true
      ∧ (f.onPairingRejectReceived reject).2.1.state = .UNPAIRED
      ∧ NodeEvent.pairingComplete .REJECTED 0 ∈ (f.onPairingRejectReceived reject).2.2)
    ∧ (f.state = .WAITING_CONFIRM → reject.offer_token ≠ f.pendingOfferToken →
       reject.offer_token ≠ 0 →
      f.onPairingRejectReceived reject = (false, f, [])) := by
  refine ⟨?_, ?_, ?_⟩
  · rintro (hs | hs) <;>
      simp [NodeFSM.onPairingRejectReceived, NodeFSM.isPairing, NodeFSM.completePairing,
        NodeFSM.transitionTo, hs]
  · intro hs hz
    simp [NodeFSM.onPairingRejectReceived, NodeFSM.isPairing, NodeFSM.completePairing,
      NodeFSM.transitionTo, hs, hz]
  · intro hs ht hz
    simp [NodeFSM.onPairingRejectReceived, NodeFSM.isPairing, hs, ht, hz]

/-- Witness for the C10 theorem at concrete inputs covering all three
branches. -/
theorem C10_reject_acceptance_witness :
    ((advNodeFSM.onPairingRejectReceived ⟨⟨9, 8, 7, 6, 5, 4⟩, 5, 99⟩).1 = true
      ∧ (advNodeFSM.onPairingRejectReceived ⟨⟨9, 8, 7, 6, 5, 4⟩, 5, 99⟩).2.1.state = .UNPAIRED
      ∧ NodeEvent.pairingComplete .REJECTED 0 ∈
          (advNodeFSM.onPairingRejectReceived ⟨⟨9, 8, 7, 6, 5, 4⟩, 5, 99⟩).2.2)
    ∧ ((waitingNodeFSM.onPairingRejectReceived ⟨⟨9, 8, 7, 6, 5, 4⟩, 5, 0⟩).1 = true
      ∧ (waitingNodeFSM.onPairingRejectReceived ⟨⟨9, 8, 7, 6, 5, 4⟩, 5, 0⟩).2.1.state = .UNPAIRED
      ∧ NodeEvent.pairingComplete .REJECTED 0 ∈
          (waitingNodeFSM.onPairingRejectReceived ⟨⟨9, 8, 7, 6, 5, 4⟩, 5, 0⟩).2.2)
    ∧ waitingNodeFSM.onPairingRejectReceived ⟨⟨9, 8, 7, 6, 5, 4⟩, 5, 99⟩ =
        (false, waitingNodeFSM, []) :=
  ⟨(C10_reject_acceptance advNodeFSM ⟨⟨9, 8, 7, 6, 5, 4⟩, 5, 99⟩).1 (Or.inl rfl),
   (C10_reject_acceptance waitingNodeFSM ⟨⟨9, 8, 7, 6, 5, 4⟩, 5, 0⟩).2.1 rfl rfl,
   (C10_reject_acceptance waitingNodeFSM ⟨⟨9, 8, 7, 6, 5, 4⟩, 5, 99⟩).2.2 rfl
     (by decide) (by decide)⟩


/-! ### Coordinator theorems -/

/-- A discovered entry used by the concrete coordinator fixtures. -/
def discNodeW : DiscoveredNode :=
  { DiscoveredNode.default with mac := ⟨1, 2, 3, 4, 5, 6⟩, last_nonce := 1,
                                last_sequence := 10, state := .DISCOVERED }

/-- Concrete coordinator in `OPERATIONAL` with no window and no binding. -/
def baseCoord : Coordinator :=
  { state := .OPERATIONAL, coordinatorMac := ⟨0xAA, 1, 2, 3, 4, 5⟩,
    coordinatorId := 1, farmId := 1, nextTowerId := 5,
    permitJoinDl := ⟨0, 0, false⟩, currentBinding := BindingAttempt.default,
    bindingActive := false, nodes := [] }

/-- Concrete coordinator in `DISCOVERY_ACTIVE` with one discovered node. -/
def discCoord : Coordinator :=
  { baseCoord with state := .DISCOVERY_ACTIVE, permitJoinDl := ⟨0, 60000, true⟩,
                   nodes := [discNodeW] }

/-- Concrete coordinator in `BINDING` with an active attempt on `discNodeW`. -/
def bindingCoord : Coordinator :=
  { discCoord with
      state := .BINDING, bindingActive := true,
      currentBinding := { node_mac := ⟨1, 2, 3, 4, 5, 6⟩, offer_token := 7,
                          assigned_tower_id := 5, started_ms := 0,
                          accept_received := false },
      nodes := [{ discNodeW with state := .OFFER_SENT, offer_token := 7 }] }

/-- Coordinator environment with every send callback wired and succeeding. -/
def allOkCoordEnv : CoordEnv :=
  { sendOffer := some fun _ _ => true, sendConfirm := some fun _ _ => true,
    sendReject := some fun _ _ => true }

/-- C3: while a binding attempt is active, `approveNode` fails and leaves
the whole coordinator — the attempt and the discovery table included —
untouched, firing no callback.  (Exclusivity coordinator-wide is structural:
the translated state holds a single `currentBinding` guarded by the single
`bindingActive` flag.) -/
theorem C3_approve_while_binding_noop (c : Coordinator) (env : CoordEnv) (mac : Mac)
    (token now : Nat) (h : c.bindingActive = true) :
    c.approveNode env mac token now = (false, c, []) := by
  unfold Coordinator.approveNode
  by_cases hs : c.state = .DISCOVERY_ACTIVE
  · simp [hs, h]
  · simp [hs]

/-- Witness for the C3 theorem at a concrete input. -/
theorem C3_approve_while_binding_noop_witness :
    bindingCoord.approveNode allOkCoordEnv ⟨1, 2, 3, 4, 5, 6⟩ 99 50 =
      (false, bindingCoord, []) :=
  C3_approve_while_binding_noop bindingCoord allOkCoordEnv ⟨1, 2, 3, 4, 5, 6⟩ 99 50 rfl

/-- C8: `enablePermitJoin` clamps the duration to 300 000 ms; from
`OPERATIONAL` it starts the window and transitions to `DISCOVERY_ACTIVE`,
from `DISCOVERY_ACTIVE` it refreshes the window leaving the state unchanged,
and from `BINDING` it fails without touching window or state. -/
theorem C8_enable_permit_join_clamped (c : Coordinator) (durationMs now : Nat) :
    (c.state = .OPERATIONAL →
      c.enablePermitJoin durationMs now =
        (true, { c with permitJoinDl := Deadline.set now (min durationMs MAX_PERMIT_JOIN_MS),
                        state := .DISCOVERY_ACTIVE },
         [CoordEvent.permitJoinChanged true (min durationMs MAX_PERMIT_JOIN_MS)]))
    ∧ (c.state = .DISCOVERY_ACTIVE →
      c.enablePermitJoin durationMs now =
        (true, { c with permitJoinDl := Deadline.set now (min durationMs MAX_PERMIT_JOIN_MS) },
         [CoordEvent.permitJoinChanged true (min durationMs MAX_PERMIT_JOIN_MS)]))
    ∧ (c.state = .BINDING → c.enablePermitJoin durationMs now = (false, c, [])) := by
  have hd : (if durationMs > MAX_PERMIT_JOIN_MS then MAX_PERMIT_JOIN_MS else durationMs)
      = min durationMs MAX_PERMIT_JOIN_MS := by
    rw [Nat.min_def]
    by_cases h : durationMs ≤ MAX_PERMIT_JOIN_MS
    · rw [if_neg (by omega), if_pos h]
    · rw [if_pos (by omega), if_neg h]
  refine ⟨?_, ?_, ?_⟩ <;> intro hs <;>
    simp [Coordinator.enablePermitJoin, Coordinator.transitionTo, hs, hd]

/-- Witness for the C8 theorem: a 400 000 ms request is clamped to
300 000 ms in all three coordinator states. -/
theorem C8_enable_permit_join_witness :
    baseCoord.enablePermitJoin 400000 5 =
      (true, { baseCoord with permitJoinDl := ⟨5, 300000, true⟩,
                              state := .DISCOVERY_ACTIVE },
       [CoordEvent.permitJoinChanged true 300000])
    ∧ discCoord.enablePermitJoin 400000 5 =
      (true, { discCoord with permitJoinDl := ⟨5, 300000, true⟩ },
       [CoordEvent.permitJoinChanged true 300000])
    ∧ bindingCoord.enablePermitJoin 400000 5 = (false, bindingCoord, []) :=
  ⟨(C8_enable_permit_join_clamped baseCoord 400000 5).1 rfl,
   (C8_enable_permit_join_clamped discCoord 400000 5).2.1 rfl,
   (C8_enable_permit_join_clamped bindingCoord 400000 5).2.2 rfl⟩


theorem findByMac_updateNodeState {nodes : List DiscoveredNode} {mac : Mac}
    {node : DiscoveredNode} (s : DiscoveryState)
    (h : findByMac nodes mac = some node) :
    findByMac (DiscoveryManager.updateNodeState nodes mac s).2.1 mac =
      some { node with state := s } := by
  by_cases he : node.state = s
  · have hu : DiscoveryManager.updateNodeState nodes mac s = (true, nodes, []) := by
      simp [DiscoveryManager.updateNodeState, h, he]
    rw [hu, ← he]
    exact h
  · have hu : DiscoveryManager.updateNodeState nodes mac s =
        (true, replaceByMac nodes mac { node with state := s },
         [DiscoveryEvent.stateChanged { node with state := s } node.state s]) := by
      simp [DiscoveryManager.updateNodeState, h, he]
    rw [hu]
    exact findByMac_replaceByMac_self _ (by simp [findByMac_mac h]) h

theorem findByMac_setOfferToken {nodes : List DiscoveredNode} {mac : Mac}
    {node : DiscoveredNode} (token : Nat)
    (h : findByMac nodes mac = some node) :
    findByMac (DiscoveryManager.setOfferToken nodes mac token).2 mac =
      some { node with offer_token := token } := by
  have hu : DiscoveryManager.setOfferToken nodes mac token =
      (true, replaceByMac nodes mac { node with offer_token := token }) := by
    simp [DiscoveryManager.setOfferToken, h]
  rw [hu]
  exact findByMac_replaceByMac_self _ (by simp [findByMac_mac h]) h

/-- C7: when the transport's offer-send callback reports failure inside
`approveNode`, the call returns false and rolls back: no binding attempt is
left active, the targeted entry ends in state `DISCOVERED` (not
`OFFER_SENT`), the coordinator stays in `DISCOVERY_ACTIVE`, and no
binding-started callback fires. -/
theorem C7_offer_send_failure_rolls_back (c : Coordinator) (env : CoordEnv)
    (send : Mac → PairingOfferMessage → Bool) (mac : Mac) (node : DiscoveredNode)
    (token now : Nat)
    (hs : c.state = .DISCOVERY_ACTIVE)
    (hb : c.bindingActive = false)
    (hn : findByMac c.nodes mac = some node)
    (hnb : node.state ≠ .BOUND)
    (ho : env.sendOffer = some send)
    (hfail : send mac (c.buildOffer node token) = false) :
    (c.approveNode env mac token now).1 = false
    ∧ (c.approveNode env mac token now).2.1.bindingActive = false
    ∧ findByMac (c.approveNode env mac token now).2.1.nodes mac =
        some { node with state := .DISCOVERED, offer_token := token }
    ∧ (c.approveNode env mac token now).2.1.state = .DISCOVERY_ACTIVE
    ∧ ∀ n, CoordEvent.bindingStarted n ∉ (c.approveNode env mac token now).2.2 := by
  have h1 := findByMac_updateNodeState .OFFER_SENT hn
  have h2 := findByMac_setOfferToken token h1
  have h3 := findByMac_updateNodeState .DISCOVERED h2
  unfold Coordinator.approveNode
  rw [hs]
  simp only [hb, hn, ho, hfail]
  simp [hnb, hfail, h3, hs]


/-- Coordinator environment whose offer send fails (transport failure). -/
def offerFailEnv : CoordEnv :=
  { sendOffer := some fun _ _ => false, sendConfirm := some fun _ _ => true,
    sendReject := some fun _ _ => true }

/-- Witness for the C7 theorem at a concrete input. -/
theorem C7_offer_send_failure_witness :
    (discCoord.approveNode offerFailEnv ⟨1, 2, 3, 4, 5, 6⟩ 42 100).1 = false
    ∧ (discCoord.approveNode offerFailEnv ⟨1, 2, 3, 4, 5, 6⟩ 42 100).2.1.bindingActive = false
    ∧ findByMac (discCoord.approveNode offerFailEnv ⟨1, 2, 3, 4, 5, 6⟩ 42 100).2.1.nodes
        ⟨1, 2, 3, 4, 5, 6⟩ = some { discNodeW with state := .DISCOVERED, offer_token := 42 }
    ∧ (discCoord.approveNode offerFailEnv ⟨1, 2, 3, 4, 5, 6⟩ 42 100).2.1.state =
        .DISCOVERY_ACTIVE
    ∧ ∀ n, CoordEvent.bindingStarted n ∉
        (discCoord.approveNode offerFailEnv ⟨1, 2, 3, 4, 5, 6⟩ 42 100).2.2 :=
  C7_offer_send_failure_rolls_back discCoord offerFailEnv (fun _ _ => false)
    ⟨1, 2, 3, 4, 5, 6⟩ discNodeW 42 100 rfl rfl (by decide) (by decide) rfl rfl

/-- Recognizer for reject-send events (used to count emitted Rejects). -/
def isSentRejectEv : CoordEvent → Bool
  | .sentReject _ _ => true
  | _ => false

theorem filter_sentReject_discovery (des : List DiscoveryEvent) :
    (des.map CoordEvent.discovery).filter isSentRejectEv = [] := by
  induction des with
  | nil => rfl
  | cons d rest ih => simp [isSentRejectEv, ih]

theorem completeBinding_fail_spec (c : Coordinator) (result : BindingResult) (now : Nat)
    (hb : c.bindingActive = true) (hr : result ≠ .SUCCESS) :
    ∃ nodeCopy,
      c.completeBinding result now =
        ({ c with
            nodes := (DiscoveryManager.updateNodeState c.nodes
                        c.currentBinding.node_mac .FAILED).2.1,
            bindingActive := false,
            currentBinding := { c.currentBinding with node_mac := Mac.zero,
                                                      offer_token := 0 },
            state := if c.permitJoinDl.running now then .DISCOVERY_ACTIVE
                     else .OPERATIONAL },
         (DiscoveryManager.updateNodeState c.nodes
            c.currentBinding.node_mac .FAILED).2.2.map CoordEvent.discovery ++
           [CoordEvent.bindingCompleted nodeCopy result]) := by
  refine ⟨(match findByMac c.nodes c.currentBinding.node_mac with
           | some n => n
           | none =>
             { DiscoveredNode.default with
                 mac := c.currentBinding.node_mac, state := .FAILED }), ?_⟩
  unfold Coordinator.completeBinding
  simp only [hb, hr, Coordinator.transitionTo]
  by_cases hp : c.permitJoinDl.running now = true <;> simp [hp]

/-- C4: if the coordinator is in `BINDING` and the attempt has exceeded the
10 000 ms binding timeout, the next tick emits exactly one Reject — reason
`TIMEOUT`, carrying the attempt's offer token, addressed to the binding
node — completes the attempt with result `TIMEOUT`, and moves to
`DISCOVERY_ACTIVE` when the permit-join window is still open and
`OPERATIONAL` otherwise. -/
theorem C4_binding_timeout_recovery (c : Coordinator) (env : CoordEnv)
    (send : Mac → PairingRejectMessage → Bool) (now : Nat)
    (hs : c.state = .BINDING)
    (hb : c.bindingActive = true)
    (ht : c.currentBinding.isTimedOut now = true)
    (hr : env.sendReject = some send) :
    ((c.tick env now).2.filter isSentRejectEv) =
      [CoordEvent.sentReject c.currentBinding.node_mac
        ⟨c.coordinatorMac, PairingRejectReason.TIMEOUT, c.currentBinding.offer_token⟩]
    ∧ (∃ n, CoordEvent.bindingCompleted n .TIMEOUT ∈ (c.tick env now).2)
    ∧ (c.tick env now).1.bindingActive = false
    ∧ (c.tick env now).1.state =
        (if c.permitJoinDl.running now then .DISCOVERY_ACTIVE else .OPERATIONAL) := by
  obtain ⟨nc, hcb⟩ := completeBinding_fail_spec c .TIMEOUT now hb (by simp)
  have htick : c.tick env now = c.handleBindingTimeout env now := by
    unfold Coordinator.tick
    simp [hs, hb, ht]
  have hhbt : c.handleBindingTimeout env now =
      ((c.completeBinding .TIMEOUT now).1,
       [CoordEvent.sentReject c.currentBinding.node_mac
         ⟨c.coordinatorMac, PairingRejectReason.TIMEOUT, c.currentBinding.offer_token⟩] ++
        (c.completeBinding .TIMEOUT now).2) := by
    unfold Coordinator.handleBindingTimeout
    simp [hb, hr]
  rw [htick, hhbt, hcb]
  refine ⟨?_, ⟨nc, ?_⟩, ?_, ?_⟩
  · simp [List.filter_append, filter_sentReject_discovery, isSentRejectEv]
  · simp
  · rfl
  · rfl

/-- Witness for the C4 theorem: `bindingCoord` (offer sent at 0 ms, window
60 000 ms) ticked at 20 000 ms. -/
theorem C4_binding_timeout_witness :
    ((bindingCoord.tick allOkCoordEnv 20000).2.filter isSentRejectEv) =
      [CoordEvent.sentReject ⟨1, 2, 3, 4, 5, 6⟩ ⟨⟨0xAA, 1, 2, 3, 4, 5⟩, 4, 7⟩]
    ∧ (∃ n, CoordEvent.bindingCompleted n .TIMEOUT ∈ (bindingCoord.tick allOkCoordEnv 20000).2)
    ∧ (bindingCoord.tick allOkCoordEnv 20000).1.bindingActive = false
    ∧ (bindingCoord.tick allOkCoordEnv 20000).1.state =
        (if bindingCoord.permitJoinDl.running 20000 then .DISCOVERY_ACTIVE
         else .OPERATIONAL) :=
  C4_binding_timeout_recovery bindingCoord allOkCoordEnv (fun _ _ => true) 20000
    rfl rfl (by decide) rfl


/-- The discovery-table key invariant: no two entries share an address
(maintained by the source, which inserts only unseen addresses). -/
def macUnique (nodes : List DiscoveredNode) : Prop :=
  nodes.Pairwise (fun a b => a.mac ≠ b.mac)

theorem findByMac_eq_none {nodes : List DiscoveredNode} {mac : Mac}
    (h : ∀ x ∈ nodes, x.mac ≠ mac) : findByMac nodes mac = none := by
  induction nodes with
  | nil => rfl
  | cons n rest ih =>
    have hn := h n (by simp)
    simp only [findByMac, if_neg hn]
    exact ih fun x hx => h x (by simp [hx])

theorem mem_replaceByMac {nodes : List DiscoveredNode} {mac : Mac}
    {n' x : DiscoveredNode} (hx : x ∈ replaceByMac nodes mac n') :
    x ∈ nodes ∨ x = n' := by
  induction nodes with
  | nil => simp [replaceByMac] at hx
  | cons n rest ih =>
    by_cases hm : n.mac = mac
    · simp only [replaceByMac, if_pos hm, List.mem_cons] at hx
      rcases hx with hx | hx
      · right; exact hx
      · left; simp [hx]
    · simp only [replaceByMac, if_neg hm, List.mem_cons] at hx
      rcases hx with hx | hx
      · left; simp [hx]
      · rcases ih hx with h | h
        · left; simp [h]
        · right; exact h

theorem macUnique_replaceByMac {nodes : List DiscoveredNode} {mac : Mac}
    {n' : DiscoveredNode} (hu : macUnique nodes) (hm : n'.mac = mac) :
    macUnique (replaceByMac nodes mac n') := by
  induction nodes with
  | nil => simp [replaceByMac, macUnique]
  | cons n rest ih =>
    rcases List.pairwise_cons.mp hu with ⟨hhead, htail⟩
    by_cases hnm : n.mac = mac
    · simp only [replaceByMac, if_pos hnm]
      refine List.pairwise_cons.mpr ⟨?_, htail⟩
      intro x hx
      rw [hm, ← hnm]
      exact hhead x hx
    · simp only [replaceByMac, if_neg hnm]
      refine List.pairwise_cons.mpr ⟨?_, ih htail⟩
      intro x hx
      rcases mem_replaceByMac hx with h | h
      · exact hhead x h
      · rw [h, hm]
        exact hnm
  
theorem macUnique_updateNodeState {nodes : List DiscoveredNode} {mac : Mac}
    (s : DiscoveryState) (hu : macUnique nodes) :
    macUnique (DiscoveryManager.updateNodeState nodes mac s).2.1 := by
  rcases hf : findByMac nodes mac with _ | node
  · have he : (DiscoveryManager.updateNodeState nodes mac s).2.1 = nodes := by
      simp [DiscoveryManager.updateNodeState, hf]
    rw [he]; exact hu
  · by_cases he : node.state = s
    · have hq : (DiscoveryManager.updateNodeState nodes mac s).2.1 = nodes := by
        simp [DiscoveryManager.updateNodeState, hf, he]
      rw [hq]; exact hu
    · have hq : (DiscoveryManager.updateNodeState nodes mac s).2.1 =
          replaceByMac nodes mac { node with state := s } := by
        simp [DiscoveryManager.updateNodeState, hf, he]
      rw [hq]
      exact macUnique_replaceByMac hu (by simp [findByMac_mac hf])

theorem findByMac_removeByMac {nodes : List DiscoveredNode} {mac : Mac}
    (hu : macUnique nodes) :
    findByMac (removeByMac nodes mac) mac = none := by
  induction nodes with
  | nil => rfl
  | cons n rest ih =>
    rcases List.pairwise_cons.mp hu with ⟨hhead, htail⟩
    by_cases hm : n.mac = mac
    · simp only [removeByMac, if_pos hm]
      exact findByMac_eq_none fun x hx hc => hhead x hx (hm.trans hc.symm)
    · simp only [removeByMac, if_neg hm, findByMac]
      exact ih htail

theorem updateNodeState_events {nodes : List DiscoveredNode} {mac : Mac}
    {node : DiscoveredNode} (s : DiscoveryState)
    (h : findByMac nodes mac = some node) (hne : node.state ≠ s) :
    (DiscoveryManager.updateNodeState nodes mac s).2.2 =
      [DiscoveryEvent.stateChanged { node with state := s } node.state s] := by
  simp [DiscoveryManager.updateNodeState, h, hne]

theorem finishAbort_spec (c : Coordinator) (evs : List CoordEvent) (mac : Mac)
    (node0 cur : DiscoveredNode) (hn : findByMac c.nodes mac = some cur)
    (hu : macUnique c.nodes) :
    (c.finishAbort evs mac (some node0)).1 = true
    ∧ findByMac (c.finishAbort evs mac (some node0)).2.1.nodes mac = none
    ∧ (cur.state ≠ .FAILED →
       CoordEvent.discovery (DiscoveryEvent.stateChanged { cur with state := .FAILED }
         cur.state .FAILED) ∈ (c.finishAbort evs mac (some node0)).2.2)
    ∧ ∀ e ∈ evs, e ∈ (c.finishAbort evs mac (some node0)).2.2 := by
  have hf1 := findByMac_updateNodeState .FAILED hn
  have hu1 := @macUnique_updateNodeState c.nodes mac DiscoveryState.FAILED hu
  have hrm : (DiscoveryManager.removeNode
      (DiscoveryManager.updateNodeState c.nodes mac .FAILED).2.1 mac).2 =
      removeByMac (DiscoveryManager.updateNodeState c.nodes mac .FAILED).2.1 mac := by
    simp [DiscoveryManager.removeNode, hf1]
  refine ⟨rfl, ?_, ?_, ?_⟩
  · show findByMac (DiscoveryManager.removeNode
        (DiscoveryManager.updateNodeState c.nodes mac .FAILED).2.1 mac).2 mac = none
    rw [hrm]
    exact findByMac_removeByMac hu1
  · intro hne
    show _ ∈ evs ++ (DiscoveryManager.updateNodeState c.nodes mac .FAILED).2.2.map
        CoordEvent.discovery
    rw [updateNodeState_events .FAILED hn hne]
    simp
  · intro e he
    show e ∈ evs ++ _
    exact List.mem_append_left _ he


/-- C9: for an abort whose sender is in the discovery table, the handler
marks the entry `FAILED` (firing the state-changed callback when the state
actually changes) and removes it, returning true — also when no binding is
active or the attempt targets another node; only an abort naming the
currently-binding node with a token differing from the attempt's non-zero
token is ignored, leaving attempt and entry untouched. -/
theorem C9_abort_processing (c : Coordinator) (msg : PairingAbortMessage) (now : Nat)
    (node : DiscoveredNode)
    (hn : findByMac c.nodes msg.sender_mac = some node)
    (hu : macUnique c.nodes) :
    ((c.bindingActive = true ∧ c.currentBinding.node_mac = msg.sender_mac ∧
      c.currentBinding.offer_token ≠ 0 ∧ msg.offer_token ≠ c.currentBinding.offer_token) →
      c.onPairingAbortReceived msg now = (false, c, []))
    ∧ (¬ (c.bindingActive = true ∧ c.currentBinding.node_mac = msg.sender_mac ∧
          c.currentBinding.offer_token ≠ 0 ∧ msg.offer_token ≠ c.currentBinding.offer_token) →
      (c.onPairingAbortReceived msg now).1 = true
      ∧ findByMac (c.onPairingAbortReceived msg now).2.1.nodes msg.sender_mac = none
      ∧ (node.state ≠ .FAILED →
        CoordEvent.discovery (DiscoveryEvent.stateChanged { node with state := .FAILED }
          node.state .FAILED) ∈ (c.onPairingAbortReceived msg now).2.2)) := by
  constructor
  · rintro ⟨hb, hm, ht, hz⟩
    simp [Coordinator.onPairingAbortReceived, hb, hm, ht, hz]
  · intro hneg
    by_cases hbm : c.bindingActive = true ∧ c.currentBinding.node_mac = msg.sender_mac
    · have hb := hbm.1
      have hm := hbm.2
      have htz : ¬ (c.currentBinding.offer_token ≠ 0 ∧
          msg.offer_token ≠ c.currentBinding.offer_token) := by
        intro hc
        exact hneg ⟨hb, hm, hc.1, hc.2⟩
      obtain ⟨nc, hcb⟩ := completeBinding_fail_spec c .NODE_ABORTED now hb (by simp)
      have hres : c.onPairingAbortReceived msg now =
          (c.completeBinding .NODE_ABORTED now).1.finishAbort
            (c.completeBinding .NODE_ABORTED now).2 msg.sender_mac (some node) := by
        unfold Coordinator.onPairingAbortReceived
        simp only [hn, hb, hm, htz]
        simp
      have hc1nodes : (c.completeBinding .NODE_ABORTED now).1.nodes =
          (DiscoveryManager.updateNodeState c.nodes msg.sender_mac .FAILED).2.1 := by
        rw [hcb, ← hm]
      have hfind1 : findByMac (c.completeBinding .NODE_ABORTED now).1.nodes msg.sender_mac =
          some { node with state := .FAILED } := by
        rw [hc1nodes]
        exact findByMac_updateNodeState .FAILED hn
      have hu1 : macUnique (c.completeBinding .NODE_ABORTED now).1.nodes := by
        rw [hc1nodes]
        exact macUnique_updateNodeState .FAILED hu
      obtain ⟨hf1, hf2, _, hf4⟩ := finishAbort_spec (c.completeBinding .NODE_ABORTED now).1
        (c.completeBinding .NODE_ABORTED now).2 msg.sender_mac node
        { node with state := .FAILED } hfind1 hu1
      refine ⟨by rw [hres]; exact hf1, by rw [hres]; exact hf2, ?_⟩
      intro hne
      rw [hres]
      apply hf4
      rw [hcb]
      have hev : (DiscoveryManager.updateNodeState c.nodes
          c.currentBinding.node_mac .FAILED).2.2 =
          [DiscoveryEvent.stateChanged { node with state := .FAILED } node.state .FAILED] := by
        rw [hm]
        exact updateNodeState_events .FAILED hn hne
      rw [hev]
      simp
    · have hres : c.onPairingAbortReceived msg now =
          c.finishAbort [] msg.sender_mac (some node) := by
        unfold Coordinator.onPairingAbortReceived
        simp only [hn, hbm]
        simp [hbm]
      obtain ⟨hf1, hf2, hf3, _⟩ := finishAbort_spec c [] msg.sender_mac node node hn hu
      exact ⟨by rw [hres]; exact hf1, by rw [hres]; exact hf2,
        fun hne => by rw [hres]; exact hf3 hne⟩

/-- Witness for the C9 theorem: the ignored case (binding node, wrong
token) and the processed case (no active binding). -/
theorem C9_abort_processing_witness :
    bindingCoord.onPairingAbortReceived ⟨⟨1, 2, 3, 4, 5, 6⟩, 8, 99⟩ 5 =
      (false, bindingCoord, [])
    ∧ ((discCoord.onPairingAbortReceived ⟨⟨1, 2, 3, 4, 5, 6⟩, 8, 0⟩ 5).1 = true
      ∧ findByMac (discCoord.onPairingAbortReceived ⟨⟨1, 2, 3, 4, 5, 6⟩, 8, 0⟩ 5).2.1.nodes
          ⟨1, 2, 3, 4, 5, 6⟩ = none
      ∧ (discNodeW.state ≠ .FAILED →
        CoordEvent.discovery (DiscoveryEvent.stateChanged { discNodeW with state := .FAILED }
          discNodeW.state .FAILED) ∈
          (discCoord.onPairingAbortReceived ⟨⟨1, 2, 3, 4, 5, 6⟩, 8, 0⟩ 5).2.2)) :=
  ⟨(C9_abort_processing bindingCoord ⟨⟨1, 2, 3, 4, 5, 6⟩, 8, 99⟩ 5
      { discNodeW with state := .OFFER_SENT, offer_token := 7 } rfl
      (by simp [macUnique, bindingCoord, discCoord, baseCoord])).1
     ⟨rfl, rfl, by decide, by decide⟩,
   (C9_abort_processing discCoord ⟨⟨1, 2, 3, 4, 5, 6⟩, 8, 0⟩ 5 discNodeW rfl
      (by simp [macUnique, discCoord, baseCoord])).2 (by decide)⟩


/-- C2: for each of the six pairing message kinds, decoding the encoding of
any message whose fields are within their declared ranges reproduces every
wire field, and decoding any buffer shorter than the kind's fixed binary
size, or whose first byte is not the kind's marker, fails — the decoder
returns `none`, assigning no field. -/
theorem C2_codec_roundtrip_and_rejection
    (ma : PairingAdvertisementMessage) (mo : PairingOfferMessage)
    (mc : PairingAcceptMessage) (mf : PairingConfirmMessage)
    (mr : PairingRejectMessage) (mb : PairingAbortMessage)
    (ba bo bc bf br bb : List Nat)
    (ha : ma.wf) (ho : mo.wf) (hc : mc.wf) (hf : mf.wf) (hr : mr.wf) (hb : mb.wf)
    (hba : ba.length < 22 ∨ ba.headD 0 ≠ 0x20)
    (hbo : bo.length < 23 ∨ bo.headD 0 ≠ 0x21)
    (hbc : bc.length < 13 ∨ bc.headD 0 ≠ 0x22)
    (hbf : bf.length < 26 ∨ bf.headD 0 ≠ 0x23)
    (hbr : br.length < 12 ∨ br.headD 0 ≠ 0x24)
    (hbb : bb.length < 12 ∨ bb.headD 0 ≠ 0x25) :
    PairingAdvertisementMessage.fromBinary ma.toBinary = some ma
    ∧ PairingOfferMessage.fromBinary mo.toBinary = some mo
    ∧ PairingAcceptMessage.fromBinary mc.toBinary = some mc
    ∧ PairingConfirmMessage.fromBinary mf.toBinary = some mf
    ∧ PairingRejectMessage.fromBinary mr.toBinary = some mr
    ∧ PairingAbortMessage.fromBinary mb.toBinary = some mb
    ∧ PairingAdvertisementMessage.fromBinary ba = none
    ∧ PairingOfferMessage.fromBinary bo = none
    ∧ PairingAcceptMessage.fromBinary bc = none
    ∧ PairingConfirmMessage.fromBinary bf = none
    ∧ PairingRejectMessage.fromBinary br = none
    ∧ PairingAbortMessage.fromBinary bb = none :=
  ⟨adv_roundtrip ma ha, offer_roundtrip mo ho, accept_roundtrip mc hc,
   confirm_roundtrip mf hf, reject_roundtrip mr hr, abort_roundtrip mb hb,
   adv_fromBinary_none ba hba, offer_fromBinary_none bo hbo,
   accept_fromBinary_none bc hbc, confirm_fromBinary_none bf hbf,
   reject_fromBinary_none br hbr, abort_fromBinary_none bb hbb⟩

/-- In-range advertisement used by the codec witness. -/
def advMsgW : PairingAdvertisementMessage :=
  { protocol_version := 2, node_mac := ⟨1, 2, 3, 4, 5, 6⟩, device_type := 1,
    firmware_version := 0x01020003, capabilities := 0x0205, nonce := 0xDEADBEEF,
    sequence_num := 0x1234, rssi_request := -70 }

/-- In-range offer used by the codec witness. -/
def offerMsgW : PairingOfferMessage :=
  { protocol_version := 2, coord_mac := ⟨0xAA, 1, 2, 3, 4, 5⟩, coord_id := 7,
    farm_id := 3, offered_tower_id := 5, nonce_echo := 0xCAFEBABE,
    offer_token := 0x01020304, channel := 6 }

/-- In-range accept used by the codec witness. -/
def acceptMsgW : PairingAcceptMessage := ⟨⟨1, 2, 3, 4, 5, 6⟩, 0x01020304, 5⟩

/-- In-range confirm used by the codec witness. -/
def confirmMsgW : PairingConfirmMessage :=
  { coord_mac := ⟨0xAA, 1, 2, 3, 4, 5⟩, tower_id := 5,
    encryption_key := ⟨1, 2, 3, 4, 5, 6, 7, 8, 9, 10, 11, 12, 13, 14, 15, 16⟩,
    config_flags := 0x31 }

/-- In-range reject used by the codec witness. -/
def rejectMsgW : PairingRejectMessage := ⟨⟨0xAA, 1, 2, 3, 4, 5⟩, 4, 0x01020304⟩

/-- In-range abort used by the codec witness. -/
def abortMsgW : PairingAbortMessage := ⟨⟨1, 2, 3, 4, 5, 6⟩, 8, 0x01020304⟩

/-- Witness for the C2 theorem at concrete messages and the empty buffer. -/
theorem C2_codec_witness :
    PairingAdvertisementMessage.fromBinary advMsgW.toBinary = some advMsgW
    ∧ PairingOfferMessage.fromBinary offerMsgW.toBinary = some offerMsgW
    ∧ PairingAcceptMessage.fromBinary acceptMsgW.toBinary = some acceptMsgW
    ∧ PairingConfirmMessage.fromBinary confirmMsgW.toBinary = some confirmMsgW
    ∧ PairingRejectMessage.fromBinary rejectMsgW.toBinary = some rejectMsgW
    ∧ PairingAbortMessage.fromBinary abortMsgW.toBinary = some abortMsgW
    ∧ PairingAdvertisementMessage.fromBinary [] = none
    ∧ PairingOfferMessage.fromBinary [] = none
    ∧ PairingAcceptMessage.fromBinary [] = none
    ∧ PairingConfirmMessage.fromBinary [] = none
    ∧ PairingRejectMessage.fromBinary [] = none
    ∧ PairingAbortMessage.fromBinary [] = none :=
  C2_codec_roundtrip_and_rejection advMsgW offerMsgW acceptMsgW confirmMsgW
    rejectMsgW abortMsgW [] [] [] [] [] []
    (by unfold PairingAdvertisementMessage.wf Mac.wf; decide)
    (by unfold PairingOfferMessage.wf Mac.wf; decide)
    (by unfold PairingAcceptMessage.wf Mac.wf; decide)
    (by unfold PairingConfirmMessage.wf Mac.wf Key16.wf; decide)
    (by unfold PairingRejectMessage.wf Mac.wf; decide)
    (by unfold PairingAbortMessage.wf Mac.wf; decide)
    (by decide) (by decide) (by decide) (by decide) (by decide) (by decide)


/-- A discovery table holding 32 live entries with distinct addresses. -/
def fullTableW : List DiscoveredNode :=
  (List.range 32).map fun i => { DiscoveredNode.default with mac := ⟨i, 0, 0, 0, 0, 0⟩ }

/-- An advertisement from a 33rd address not present in `fullTableW`. -/
def adv33W : PairingAdvertisementMessage :=
  { protocol_version := 2, node_mac := ⟨40, 0, 0, 0, 0, 0⟩, device_type := 1,
    firmware_version := 0, capabilities := 0, nonce := 9, sequence_num := 1,
    rssi_request := 0 }

/-- Witness for the C5 theorem: the 33rd distinct address is refused. -/
theorem C5_capacity_witness :
    DiscoveryManager.onAdvertisementReceived fullTableW adv33W (-40) 0 =
      (false, fullTableW, []) :=
  C5_capacity_enforcement fullTableW adv33W (-40) 0 (by decide) (by decide)

/-- An advertisement duplicating `discNodeW`'s stored (nonce, sequence). -/
def dupAdvW : PairingAdvertisementMessage :=
  { protocol_version := 2, node_mac := ⟨1, 2, 3, 4, 5, 6⟩, device_type := 1,
    firmware_version := 0, capabilities := 0, nonce := 1, sequence_num := 10,
    rssi_request := 0 }

/-- The same advertisement with a fresh (nonce, sequence) pair. -/
def freshAdvW : PairingAdvertisementMessage :=
  { dupAdvW with nonce := 2, sequence_num := 11 }

/-- Witness for the C6 theorem: a stored duplicate is dropped, and a fresh
pair submitted twice yields exactly one update event. -/
theorem C6_duplicate_suppression_witness :
    DiscoveryManager.onAdvertisementReceived [discNodeW] dupAdvW 0 5 =
      (false, [discNodeW], [])
    ∧ ((DiscoveryManager.onAdvertisementReceived [discNodeW] freshAdvW 0 5).1 = true
      ∧ (∃ n, (DiscoveryManager.onAdvertisementReceived [discNodeW] freshAdvW 0 5).2.2 =
          [DiscoveryEvent.updated n])
      ∧ DiscoveryManager.onAdvertisementReceived
          (DiscoveryManager.onAdvertisementReceived [discNodeW] freshAdvW 0 5).2.1
          freshAdvW 0 6 =
        (false, (DiscoveryManager.onAdvertisementReceived [discNodeW] freshAdvW 0 5).2.1,
         [])) :=
  ⟨(C6_duplicate_suppression [discNodeW] dupAdvW 0 5 6 discNodeW (by decide)).1 (by decide),
   (C6_duplicate_suppression [discNodeW] freshAdvW 0 5 6 discNodeW (by decide)).2 (by decide)⟩

end Hydro
